import Mathlib

/-!
Shallow embedding of `src/server/main.py` (Beat Studio backend pipeline).

Paths are modelled as lists of components (`List String`); the filesystem,
the executable search path (`shutil.which`), the environment and the
results of spawned subprocesses are modelled as oracles bundled in a
`World`.  Every pipeline function returns its result together with a
trace of externally visible events (file writes, subprocess spawns,
workspace creation/removal), so that claims about "no process is
spawned" or "the workspace is always deleted" are statements about the
trace.
-/

namespace BeatStudio

/-! ### Python string helpers (`str.lower`, `pathlib` name/suffix/stem) -/

/-- ASCII lowering of one character, as Python `str.lower` acts on ASCII. -/
def lowerChar (c : Char) : Char :=
  if 'A' ≤ c ∧ c ≤ 'Z' then Char.ofNat (c.toNat + 32) else c

/-- `s.lower()` (ASCII fragment, which is all the pipeline compares). -/
def strLower (s : String) : String :=
  String.mk (s.toList.map lowerChar)

/-- Split a string on `/` (posix separator), keeping empty pieces,
as `pathlib`'s parser does before discarding them. -/
def pySplit (s : String) : List String :=
  let step : String × List String → Char → String × List String :=
    fun st c => if c = '/' then ("", st.2 ++ [st.1]) else (st.1.push c, st.2)
  let r := s.toList.foldl step ("", [])
  r.2 ++ [r.1]

/-- `PurePosixPath(s).parts` (without drive/root): `pathlib` drops empty
components and `.` but keeps `..`. -/
def pyParts (s : String) : List String :=
  (pySplit s).filter (fun c => !(c == "") && !(c == "."))

/-- `PurePosixPath(s).name`: the final component, `""` when there is none. -/
def pyName (s : String) : String :=
  (pyParts s).getLast?.getD ""

/-- Index of the last occurrence of `c` in `l`, if any (`str.rfind`). -/
def lastIdxOf (c : Char) (l : List Char) : Option Nat :=
  (l.foldl (fun (st : Nat × Option Nat) ch =>
    (st.1 + 1, if ch = c then some st.1 else st.2)) (0, none)).2

/-- `PurePosixPath` `suffix` of a file name: from the last dot, provided the
dot is neither the first nor the last character; `""` otherwise. -/
def pySuffix (name : String) : String :=
  let cs := name.toList
  match lastIdxOf '.' cs with
  | none => ""
  | some i => if 0 < i ∧ i + 1 < cs.length then String.mk (cs.drop i) else ""

/-- `PurePosixPath` `stem` of a file name: the name with `pySuffix` removed. -/
def pyStem (name : String) : String :=
  let cs := name.toList
  match lastIdxOf '.' cs with
  | none => name
  | some i => if 0 < i ∧ i + 1 < cs.length then String.mk (cs.take i) else name

/-! ### Paths as component lists -/

/-- A filesystem path, as its list of components (a leading `""` renders as
the root, matching `"/".intercalate`). -/
abbrev PPath := List String

/-- `str(path)`: join the components with `/`. -/
def pathStr (p : PPath) : String :=
  String.intercalate "/" p

/-- `path / n` for a component produced by `pyName`: `pathlib` ignores an
empty component and appends any other single component. -/
def pathJoin (p : PPath) (n : String) : PPath :=
  if n = "" then p else p ++ [n]

/-- `.name` of a component-list path: its last component. -/
def partsName (p : PPath) : String :=
  p.getLast?.getD ""

/-- Resolve `..` components against their parent, to judge where a path
with a trailing `..` actually points. -/
def resolveDots (p : PPath) : PPath :=
  p.foldl (fun acc c => if c = ".." then acc.dropLast else acc ++ [c]) []

/-! ### The world: environment, filesystem and subprocess oracles -/

/-- The environment read at module load:
`DEMUCS_MODEL` (default `"htdemucs"`), `DEMUCS_BIN`, `FFMPEG_BIN`. -/
structure Config where
  DEMUCS_MODEL : String
  DEMUCS_BIN : Option String
  FFMPEG_BIN : Option String
deriving Repr, DecidableEq

/-- External oracles for one request: configuration, `shutil.which`,
filesystem existence, subprocess results `(returncode, stdout, stderr)`,
the directory of the server script (for the `.venv` candidates) and the
fresh directory handed out by `tempfile.TemporaryDirectory`. -/
structure World where
  cfg : Config
  which : String → Option String
  pathExists : PPath → Bool
  run : List String → Int × String × String
  here : PPath
  tmpdir : PPath

/-- Failure outcomes: `fastapi.HTTPException(status, detail)`, or an
uncaught Python `AttributeError` (surfaced by the framework as a 500
response that is not an `HTTPException`). -/
inductive Err where
  | http (status : Nat) (detail : String)
  | attrError (msg : String)
deriving Repr, DecidableEq

/-- Externally visible events, in order of occurrence. -/
inductive Event where
  | writeFile (path : PPath) (data : String)
  | spawn (cmd : List String)
  | mkWorkspace (path : PPath)
  | rmWorkspace (path : PPath)
deriving Repr, DecidableEq

/-- `stderr.decode() or stdout.decode()`: Python `or` on strings. -/
def orElseStr (a b : String) : String :=
  if a = "" then b else a

/-! ### The pipeline functions, translated from `src/server/main.py` -/

/-- `resolve_demucs_bin`: `DEMUCS_BIN` override, then `shutil.which("demucs")`,
then `server/.venv` unix and windows candidates, else an HTTP 500. -/
def resolve_demucs_bin (w : World) : Except Err String :=
  match w.cfg.DEMUCS_BIN with
  | some b => .ok b
  | none =>
    match w.which "demucs" with
    | some p => .ok p
    | none =>
      let candidate_unix := w.here ++ [".venv", "bin", "demucs"]
      let candidate_win := w.here ++ [".venv", "Scripts", "demucs.exe"]
      if w.pathExists candidate_unix then .ok (pathStr candidate_unix)
      else if w.pathExists candidate_win then .ok (pathStr candidate_win)
      else .error (.http 500
        "Demucs CLI not found. Ensure it\x27s installed in PATH or server/.venv (set DEMUCS_BIN to override).")

/-- `resolve_ffmpeg_bin`: `FFMPEG_BIN` override, then `shutil.which("ffmpeg")`,
else `None`.  Note: unlike `resolve_demucs_bin` there is no local `.venv`
fallback step. -/
def resolve_ffmpeg_bin (w : World) : Option String :=
  match w.cfg.FFMPEG_BIN with
  | some b => some b
  | none =>
    match w.which "ffmpeg" with
    | some p => some p
    | none => none

/-- The accepted-extension set of `maybe_transcode_to_wav`. -/
def ACCEPTED : List String := [".wav", ".flac", ".mp3", ".m4a", ".ogg"]

/-- `maybe_transcode_to_wav(input_path, workdir)`: pass through accepted
extensions; otherwise resolve ffmpeg (500 if absent), spawn it with fixed
arguments and check the transcoded output exists. -/
def maybe_transcode_to_wav (w : World) (input_path workdir : PPath) :
    Except Err PPath × List Event :=
  if strLower (pySuffix (partsName input_path)) ∈ ACCEPTED then
    (.ok input_path, [])
  else
    match resolve_ffmpeg_bin w with
    | none =>
      (.error (.http 500
        "FFmpeg is required to transcode this format (e.g., webm). Install ffmpeg or upload a wav/mp3 file."), [])
    | some ffmpeg_bin =>
      let output_path := workdir ++ [pyStem (partsName input_path) ++ ".wav"]
      let cmd := [ffmpeg_bin, "-y", "-i", pathStr input_path,
        "-ar", "44100", "-ac", "2", pathStr output_path]
      let r := w.run cmd
      if r.1 ≠ 0 ∨ w.pathExists output_path = false then
        (.error (.http 500
          ("FFmpeg failed to transcode input: " ++ orElseStr r.2.2 r.2.1)), [.spawn cmd])
      else
        (.ok output_path, [.spawn cmd])

/-- `run_demucs(input_path, output_root)`: resolve the binary, spawn it with
the fixed model, fail on nonzero exit, then require the conventional
output directory `output_root/<model>/<stem>` to exist. -/
def run_demucs (w : World) (input_path output_root : PPath) :
    Except Err PPath × List Event :=
  match resolve_demucs_bin w with
  | .error e => (.error e, [])
  | .ok demucs_bin =>
    let cmd := [demucs_bin, "-n", w.cfg.DEMUCS_MODEL,
      "-o", pathStr output_root, pathStr input_path]
    let r := w.run cmd
    if r.1 ≠ 0 then
      (.error (.http 500 ("Demucs failed: " ++ orElseStr r.2.2 r.2.1)), [.spawn cmd])
    else
      let song_dir := pathJoin (pathJoin output_root w.cfg.DEMUCS_MODEL)
        (pyStem (partsName input_path))
      if w.pathExists song_dir = false then
        (.error (.http 500 "Demucs output missing."), [.spawn cmd])
      else
        (.ok song_dir, [.spawn cmd])

/-- The fixed stem list iterated by `zip_stems`. -/
def stems : List String := ["drums", "bass", "vocals", "other"]

/-- The loop of `zip_stems`: for each stem in order, if `<stem>.wav` exists
in `stem_dir`, an entry `(arcname, source path)` is written with the flat
arcname `<stem>.wav`. -/
def zip_entries (w : World) (stem_dir : PPath) : List (String × PPath) :=
  stems.filterMap fun stem =>
    if w.pathExists (stem_dir ++ [stem ++ ".wav"]) then
      some (stem ++ ".wav", stem_dir ++ [stem ++ ".wav"])
    else none

/-- `zip_stems(stem_dir)`: archive entries for each existing `<stem>.wav`,
in the fixed order; a 500 when none exists (`found_any` stayed false). -/
def zip_stems (w : World) (stem_dir : PPath) :
    Except Err (List (String × PPath)) :=
  if zip_entries w stem_dir = [] then
    .error (.http 500 "No stems produced by Demucs.")
  else
    .ok (zip_entries w stem_dir)

/-! ### The request handler `separate` -/

/-- The HTTP methods the route accepts. -/
inductive Method where
  | POST
  | OPTIONS
deriving Repr, DecidableEq

/-- `fastapi.UploadFile`: `filename` is optional, `content` the raw bytes. -/
structure UploadFile where
  filename : Option String
  content : String
deriving Repr, DecidableEq

/-- Python truthiness of `file.filename` (`None` and `""` are falsy). -/
def truthy : Option String → Bool
  | none => false
  | some s => !(s == "")

/-- Responses of the route: the OPTIONS acknowledgment, or a streamed zip
with its entries, `X-Model` header and `Content-Disposition` header. -/
inductive SepResponse where
  | ack
  | stream (entries : List (String × PPath)) (xModel : String)
      (contentDisposition : String)
deriving Repr, DecidableEq

/-- The body of the `with tempfile.TemporaryDirectory()` block: persist the
upload, transcode if needed, run demucs, zip the stems. -/
def separateBody (w : World) (f : UploadFile) :
    Except Err SepResponse × List Event :=
  let input_path := pathJoin w.tmpdir (pyName (f.filename.getD ""))
  let output_root := pathJoin w.tmpdir "separated"
  let t := maybe_transcode_to_wav w input_path w.tmpdir
  match t.1 with
  | .error e => (.error e, .writeFile input_path f.content :: t.2)
  | .ok processed_input =>
    let dm := run_demucs w processed_input output_root
    match dm.1 with
    | .error e => (.error e, .writeFile input_path f.content :: (t.2 ++ dm.2))
    | .ok stem_dir =>
      match zip_stems w stem_dir with
      | .error e => (.error e, .writeFile input_path f.content :: (t.2 ++ dm.2))
      | .ok entries =>
        (.ok (.stream entries w.cfg.DEMUCS_MODEL
          ("attachment; filename=\"" ++ pyStem (partsName input_path) ++ "_stems.zip\"")),
          .writeFile input_path f.content :: (t.2 ++ dm.2))

/-- The `/api/separate` handler.  OPTIONS is acknowledged immediately; a
missing file dereferences `None` (`file.filename`) and raises
`AttributeError`; a falsy filename is a 400; otherwise the body runs
inside the temporary-directory scope, whose removal is appended to the
trace on every outcome (the `with` statement's guaranteed cleanup). -/
def separate (w : World) (method : Method) (file : Option UploadFile) :
    Except Err SepResponse × List Event :=
  if method = .OPTIONS then (.ok .ack, [])
  else
    match file with
    | none => (.error (.attrError "NoneType object has no attribute filename"), [])
    | some f =>
      if truthy f.filename = false then
        (.error (.http 400 "File required."), [])
      else
        let r := separateBody w f
        (r.1, Event.mkWorkspace w.tmpdir :: (r.2 ++ [Event.rmWorkspace w.tmpdir]))

/-! ### Shared lemmas -/

theorem filterMap_ite_eq_filter_map {α β : Type} (p : α → Bool) (f : α → β)
    (l : List α) :
    (l.filterMap fun a => if p a then some (f a) else none) =
      (l.filter p).map f := by
  induction l with
  | nil => rfl
  | cons a t ih => cases h : p a <;> simp [List.filterMap_cons, List.filter_cons, h, ih]

theorem strLower_of_mem_ACCEPTED {s : String} (h : s ∈ ACCEPTED) :
    strLower s = s := by
  simp only [ACCEPTED, List.mem_cons, List.mem_singleton, List.not_mem_nil, or_false] at h
  rcases h with rfl | rfl | rfl | rfl | rfl <;> decide

theorem partsName_concat (p : PPath) (n : String) : partsName (p ++ [n]) = n := by
  simp [partsName, List.getLast?_concat]

theorem resolveDots_concat (p : PPath) (n : String) (h : n ≠ "..") :
    resolveDots (p ++ [n]) = resolveDots p ++ [n] := by
  simp [resolveDots, List.foldl_append, h]

/-! ### Concrete worlds used by witnesses and counterexamples -/

/-- A baseline world: nothing configured, nothing on PATH, empty filesystem,
every subprocess exits 0 silently. -/
def w0 : World where
  cfg := { DEMUCS_MODEL := "htdemucs", DEMUCS_BIN := none, FFMPEG_BIN := none }
  which := fun _ => none
  pathExists := fun _ => false
  run := fun _ => (0, "", "")
  here := ["", "srv", "server"]
  tmpdir := ["", "tmp", "req0"]

/-- A stem directory `/out/song` holding only `drums.wav` and `vocals.wav`. -/
def wDV : World :=
  { w0 with pathExists := fun p =>
      p == ["", "out", "song", "drums.wav"] || p == ["", "out", "song", "vocals.wav"] }

/-- Demucs configured via override; the engine exits 0 but produces nothing. -/
def wC2 : World :=
  { w0 with cfg := { DEMUCS_MODEL := "htdemucs", DEMUCS_BIN := some "demucs", FFMPEG_BIN := none } }

/-- Overrides set for both binaries while PATH also has matches. -/
def wOv : World :=
  { w0 with
    cfg := { DEMUCS_MODEL := "htdemucs",
             DEMUCS_BIN := some "/opt/demucs", FFMPEG_BIN := some "/opt/ffmpeg" },
    which := fun s =>
      if s == "demucs" then some "/usr/bin/demucs"
      else if s == "ffmpeg" then some "/usr/bin/ffmpeg" else none }

/-- No override, nothing on PATH, but local `.venv` installs of both
`demucs` and `ffmpeg` exist under the server directory. -/
def wLoc : World :=
  { w0 with pathExists := fun p =>
      p == ["", "srv", "server", ".venv", "bin", "demucs"] ||
      p == ["", "srv", "server", ".venv", "bin", "ffmpeg"] }

/-! ### C1 -/

/-- C1: `zip_stems` iterates exactly `[drums, bass, vocals, other]` in that
order and the archive holds exactly the entries `<stem>.wav` that exist in
the stem directory, each under the flat arcname `<stem>.wav`. -/
theorem zip_stems_exact (w : World) (stem_dir : PPath)
    (h : ∃ s ∈ stems, w.pathExists (stem_dir ++ [s ++ ".wav"]) = true) :
    zip_stems w stem_dir =
      .ok ((stems.filter fun s => w.pathExists (stem_dir ++ [s ++ ".wav"])).map
        fun s => (s ++ ".wav", stem_dir ++ [s ++ ".wav"])) := by
  obtain ⟨s, hs, hex⟩ := h
  have hmem : s ∈ stems.filter fun t => w.pathExists (stem_dir ++ [t ++ ".wav"]) :=
    List.mem_filter.mpr ⟨hs, hex⟩
  have hentries : zip_entries w stem_dir =
      (stems.filter fun t => w.pathExists (stem_dir ++ [t ++ ".wav"])).map
        (fun t => (t ++ ".wav", stem_dir ++ [t ++ ".wav"])) :=
    filterMap_ite_eq_filter_map _ _ _
  have hne : zip_entries w stem_dir ≠ [] := by
    rw [hentries]
    exact List.ne_nil_of_mem (List.mem_map_of_mem _ hmem)
  rw [zip_stems, if_neg hne, hentries]

/-- Witness for C1: over `/out/song` holding only `drums.wav` and
`vocals.wav`, the archive has exactly those two flat entries, in order. -/
theorem zip_stems_exact_witness :
    (∃ s ∈ stems, wDV.pathExists (["", "out", "song"] ++ [s ++ ".wav"]) = true) ∧
    zip_stems wDV ["", "out", "song"] =
      .ok [("drums.wav", ["", "out", "song", "drums.wav"]),
           ("vocals.wav", ["", "out", "song", "vocals.wav"])] := by
  have h : ∃ s ∈ stems, wDV.pathExists (["", "out", "song"] ++ [s ++ ".wav"]) = true :=
    ⟨"drums", by decide, by decide⟩
  refine ⟨h, ?_⟩
  rw [zip_stems_exact wDV ["", "out", "song"] h]
  rfl

/-! ### C2 -/

/-- C2: when the demucs binary resolves and the subprocess exits 0,
`run_demucs` fails with the "Demucs output missing." 500 exactly when the
conventional output directory `output_root/<model>/<stem>` does not exist,
and succeeds (with that directory) exactly when it does — so exit code 0
without output is never a success. -/
theorem run_demucs_output_guard (w : World) (input_path output_root : PPath)
    (b : String) (hres : resolve_demucs_bin w = .ok b)
    (hrc : (w.run [b, "-n", w.cfg.DEMUCS_MODEL,
        "-o", pathStr output_root, pathStr input_path]).1 = 0) :
    ((run_demucs w input_path output_root).1 =
        .error (.http 500 "Demucs output missing.") ↔
      w.pathExists (pathJoin (pathJoin output_root w.cfg.DEMUCS_MODEL)
        (pyStem (partsName input_path))) = false) ∧
    ((run_demucs w input_path output_root).1 =
        .ok (pathJoin (pathJoin output_root w.cfg.DEMUCS_MODEL)
          (pyStem (partsName input_path))) ↔
      w.pathExists (pathJoin (pathJoin output_root w.cfg.DEMUCS_MODEL)
        (pyStem (partsName input_path))) = true) := by
  unfold run_demucs
  rw [hres]
  simp only [hrc, ne_eq, not_true_eq_false, if_false]
  cases hpe : w.pathExists (pathJoin (pathJoin output_root w.cfg.DEMUCS_MODEL)
      (pyStem (partsName input_path))) <;>
    simp [hpe]

/-- Witness for C2: with the engine exiting 0 and an empty filesystem, the
result is the "output missing" 500. -/
theorem run_demucs_output_guard_witness :
    (run_demucs wC2 ["", "tmp", "req0", "song.wav"] ["", "tmp", "req0", "separated"]).1 =
      .error (.http 500 "Demucs output missing.") :=
  (run_demucs_output_guard wC2 ["", "tmp", "req0", "song.wav"]
    ["", "tmp", "req0", "separated"] "demucs" rfl rfl).1.mpr rfl

/-! ### C3 -/

/-- C3: for an input path whose extension is in the accepted set,
`maybe_transcode_to_wav` returns the input path itself and its trace is
empty — no subprocess is spawned (and, since the result does not depend on
the world at all, the transcoder binary is never resolved). -/
theorem maybe_transcode_accepted_id (w : World) (input_path workdir : PPath)
    (h : pySuffix (partsName input_path) ∈ ACCEPTED) :
    maybe_transcode_to_wav w input_path workdir = (.ok input_path, []) := by
  unfold maybe_transcode_to_wav
  rw [if_pos (by rw [strLower_of_mem_ACCEPTED h]; exact h)]

/-- Witness for C3: a `.wav` upload passes through untouched. -/
theorem maybe_transcode_accepted_id_witness :
    pySuffix (partsName ["", "tmp", "req0", "song.wav"]) ∈ ACCEPTED ∧
    maybe_transcode_to_wav w0 ["", "tmp", "req0", "song.wav"] ["", "tmp", "req0"] =
      (.ok ["", "tmp", "req0", "song.wav"], []) :=
  ⟨by decide, maybe_transcode_accepted_id w0 _ _ (by decide)⟩

/-! ### C10 -/

/-- C10: the accepted-extension test lowercases the suffix first, so any
case variant of an accepted extension also passes through unchanged with
no subprocess spawned. -/
theorem maybe_transcode_case_insensitive (w : World) (input_path workdir : PPath)
    (h : strLower (pySuffix (partsName input_path)) ∈ ACCEPTED) :
    maybe_transcode_to_wav w input_path workdir = (.ok input_path, []) := by
  unfold maybe_transcode_to_wav
  rw [if_pos h]

/-- Witness for C10: `.WAV` (not literally in the accepted set) is treated
exactly like `.wav`. -/
theorem maybe_transcode_case_insensitive_witness :
    strLower (pySuffix (partsName ["", "tmp", "req0", "song.WAV"])) ∈ ACCEPTED ∧
    pySuffix (partsName ["", "tmp", "req0", "song.WAV"]) ∉ ACCEPTED ∧
    maybe_transcode_to_wav w0 ["", "tmp", "req0", "song.WAV"] ["", "tmp", "req0"] =
      (.ok ["", "tmp", "req0", "song.WAV"], []) :=
  ⟨by decide, by decide, maybe_transcode_case_insensitive w0 _ _ (by decide)⟩

/-! ### C4 -/

/-- C4 counterexample: the transcoder resolver has no local-install step.
In a world with no `FFMPEG_BIN` override and no PATH match but a local
`.venv/bin/ffmpeg` present, `resolve_ffmpeg_bin` returns `none` instead of
the local candidate, refuting the claim for the transcoder kind. -/
theorem resolve_ffmpeg_no_local_fallback :
    wLoc.cfg.FFMPEG_BIN = none ∧ wLoc.which "ffmpeg" = none ∧
    wLoc.pathExists (wLoc.here ++ [".venv", "bin", "ffmpeg"]) = true ∧
    resolve_ffmpeg_bin wLoc = none :=
  ⟨rfl, rfl, by decide, rfl⟩

/-- C4 amended: the separation-engine resolver follows override, then PATH,
then the local `.venv` candidates (unix before windows); the transcoder
resolver follows override then PATH only and yields `none` otherwise (no
local-install step).  For both kinds an override wins even when a PATH
match exists. -/
theorem resolve_precedence (w : World) :
    (∀ b, w.cfg.DEMUCS_BIN = some b → resolve_demucs_bin w = .ok b) ∧
    (∀ b, w.cfg.FFMPEG_BIN = some b → resolve_ffmpeg_bin w = some b) ∧
    (∀ p, w.cfg.DEMUCS_BIN = none → w.which "demucs" = some p →
      resolve_demucs_bin w = .ok p) ∧
    (∀ p, w.cfg.FFMPEG_BIN = none → w.which "ffmpeg" = some p →
      resolve_ffmpeg_bin w = some p) ∧
    (w.cfg.DEMUCS_BIN = none → w.which "demucs" = none →
      w.pathExists (w.here ++ [".venv", "bin", "demucs"]) = true →
      resolve_demucs_bin w = .ok (pathStr (w.here ++ [".venv", "bin", "demucs"]))) ∧
    (w.cfg.DEMUCS_BIN = none → w.which "demucs" = none →
      w.pathExists (w.here ++ [".venv", "bin", "demucs"]) = false →
      w.pathExists (w.here ++ [".venv", "Scripts", "demucs.exe"]) = true →
      resolve_demucs_bin w =
        .ok (pathStr (w.here ++ [".venv", "Scripts", "demucs.exe"]))) ∧
    (w.cfg.FFMPEG_BIN = none → w.which "ffmpeg" = none →
      resolve_ffmpeg_bin w = none) := by
  refine ⟨fun b hb => ?_, fun b hb => ?_, fun p h1 h2 => ?_, fun p h1 h2 => ?_,
    fun h1 h2 h3 => ?_, fun h1 h2 h3 h4 => ?_, fun h1 h2 => ?_⟩ <;>
    simp [resolve_demucs_bin, resolve_ffmpeg_bin, *]

/-- Witness for C4 (amended): override beats an existing PATH match for
both binaries; the local `.venv` demucs is found when override and PATH
miss, while the analogous local ffmpeg is not. -/
theorem resolve_precedence_witness :
    resolve_demucs_bin wOv = .ok "/opt/demucs" ∧
    resolve_ffmpeg_bin wOv = some "/opt/ffmpeg" ∧
    resolve_demucs_bin wLoc = .ok "/srv/server/.venv/bin/demucs" ∧
    resolve_ffmpeg_bin wLoc = none :=
  ⟨(resolve_precedence wOv).1 _ rfl,
   (resolve_precedence wOv).2.1 _ rfl,
   by rw [(resolve_precedence wLoc).2.2.2.2.1 rfl rfl (by decide)]; rfl,
   (resolve_precedence wLoc).2.2.2.2.2.2 rfl rfl⟩

/-! ### C5 -/

/-- C5: when none of the four stem files exists, `zip_stems` fails with the
"No stems produced" 500; and any successful archive is nonempty — there is
no empty-archive success. -/
theorem zip_stems_never_empty (w : World) (stem_dir : PPath) :
    ((∀ s ∈ stems, w.pathExists (stem_dir ++ [s ++ ".wav"]) = false) →
      zip_stems w stem_dir = .error (.http 500 "No stems produced by Demucs.")) ∧
    (∀ entries, zip_stems w stem_dir = .ok entries → entries ≠ []) := by
  constructor
  · intro h
    have hnil : zip_entries w stem_dir = [] := by
      rw [zip_entries, filterMap_ite_eq_filter_map, List.map_eq_nil_iff,
        List.filter_eq_nil_iff]
      intro a ha
      simp [h a ha]
    rw [zip_stems, if_pos hnil]
  · intro entries hok
    rw [zip_stems] at hok
    by_cases hnil : zip_entries w stem_dir = []
    · rw [if_pos hnil] at hok
      cases hok
    · rw [if_neg hnil] at hok
      injection hok with he
      rw [← he]
      exact hnil

/-- Witness for C5: over an empty filesystem the packager fails with the
"No stems produced" error. -/
theorem zip_stems_never_empty_witness :
    zip_stems w0 ["", "out", "empty"] =
      .error (.http 500 "No stems produced by Demucs.") :=
  (zip_stems_never_empty w0 ["", "out", "empty"]).1 (fun _ _ => rfl)

/-! ### C6 -/

/-- C6 evidence: the `file` parameter is declared optional
(`UploadFile | None = File(None)`), yet `file.filename` is evaluated
unguarded.  A POST with no file field therefore raises `AttributeError`
(an unhandled 500), not the intended 400; only an upload object carrying a
falsy filename (empty string or `None`) gets the 400 "File required."
response.  In all three cases nothing is written and nothing is spawned. -/
theorem separate_missing_file_crash (w : World) :
    separate w .POST none =
      (.error (.attrError "NoneType object has no attribute filename"), []) ∧
    separate w .POST (some { filename := some "", content := "" }) =
      (.error (.http 400 "File required."), []) ∧
    separate w .POST (some { filename := none, content := "" }) =
      (.error (.http 400 "File required."), []) :=
  ⟨rfl, rfl, rfl⟩

/-! ### C7 -/

/-- Every event emitted by `maybe_transcode_to_wav` is a subprocess spawn. -/
theorem maybe_transcode_spawn_only (w : World) (i d : PPath) (e : Event)
    (he : e ∈ (maybe_transcode_to_wav w i d).2) : ∃ c, e = Event.spawn c := by
  unfold maybe_transcode_to_wav at he
  by_cases hs : strLower (pySuffix (partsName i)) ∈ ACCEPTED
  · rw [if_pos hs] at he
    simp at he
  · rw [if_neg hs] at he
    rcases hr : resolve_ffmpeg_bin w with _ | fb <;> rw [hr] at he
    · simp at he
    · simp only at he
      split at he <;> simp at he <;> exact ⟨_, he⟩

/-- Every event emitted by `run_demucs` is a subprocess spawn. -/
theorem run_demucs_spawn_only (w : World) (i o : PPath) (e : Event)
    (he : e ∈ (run_demucs w i o).2) : ∃ c, e = Event.spawn c := by
  unfold run_demucs at he
  rcases hr : resolve_demucs_bin w with er | db <;> rw [hr] at he
  · simp at he
  · simp only at he
    split at he
    · simp at he
      exact ⟨_, he⟩
    · split at he <;> simp at he <;> exact ⟨_, he⟩

/-- C7: a POST whose saved filename has a non-accepted extension, in a world
where no transcoder is resolvable (no override, no PATH match), fails with
the transcoder-required 500 and its trace contains no spawn event at all —
in particular the separation engine is never invoked. -/
theorem separate_no_transcoder_blocks (w : World) (name content : String)
    (hname : name ≠ "") (hpn : pyName name ≠ "")
    (hext : strLower (pySuffix (pyName name)) ∉ ACCEPTED)
    (henv : w.cfg.FFMPEG_BIN = none) (hwhich : w.which "ffmpeg" = none) :
    (separate w .POST (some { filename := some name, content := content })).1 =
      .error (.http 500
        "FFmpeg is required to transcode this format (e.g., webm). Install ffmpeg or upload a wav/mp3 file.") ∧
    ∀ cmd, Event.spawn cmd ∉
      (separate w .POST (some { filename := some name, content := content })).2 := by
  have hres : resolve_ffmpeg_bin w = none := by
    simp [resolve_ffmpeg_bin, henv, hwhich]
  have hinput : partsName (pathJoin w.tmpdir (pyName name)) = pyName name := by
    rw [pathJoin, if_neg hpn, partsName_concat]
  have htr : maybe_transcode_to_wav w (pathJoin w.tmpdir (pyName name)) w.tmpdir =
      (.error (.http 500
        "FFmpeg is required to transcode this format (e.g., webm). Install ffmpeg or upload a wav/mp3 file."), []) := by
    unfold maybe_transcode_to_wav
    rw [hinput, if_neg hext, hres]
  have htruthy : truthy (some name) = true := by
    simp [truthy, hname]
  have hsep : separate w .POST (some { filename := some name, content := content }) =
      (.error (.http 500
        "FFmpeg is required to transcode this format (e.g., webm). Install ffmpeg or upload a wav/mp3 file."),
       [Event.mkWorkspace w.tmpdir,
        Event.writeFile (pathJoin w.tmpdir (pyName name)) content,
        Event.rmWorkspace w.tmpdir]) := by
    rw [separate]
    rw [if_neg (by intro h; cases h)]
    rw [htruthy]
    rw [if_neg (by intro h; cases h)]
    rw [separateBody]
    simp only [Option.getD_some, htr]
    rfl
  rw [hsep]
  refine ⟨rfl, fun cmd hc => ?_⟩
  simp at hc

/-- Witness for C7: uploading `clip.webm` with no transcoder resolvable. -/
theorem separate_no_transcoder_blocks_witness :
    (separate w0 .POST (some { filename := some "clip.webm", content := "x" })).1 =
      .error (.http 500
        "FFmpeg is required to transcode this format (e.g., webm). Install ffmpeg or upload a wav/mp3 file.") ∧
    ∀ cmd, Event.spawn cmd ∉
      (separate w0 .POST (some { filename := some "clip.webm", content := "x" })).2 :=
  separate_no_transcoder_blocks w0 "clip.webm" "x"
    (by decide) (by decide) (by decide) rfl rfl

/-! ### C8 -/

/-- C8: on every request, either no workspace is ever created (the early
exits before the `with` block) or the trace opens with the workspace
creation and closes with its removal — the scoped cleanup runs on success
and on every error alike, so no workspace outlives its request. -/
theorem separate_workspace_cleanup (w : World) (m : Method) (f : Option UploadFile) :
    (separate w m f).2 = [] ∨
    ∃ tr, (separate w m f).2 =
      Event.mkWorkspace w.tmpdir :: (tr ++ [Event.rmWorkspace w.tmpdir]) := by
  cases m with
  | OPTIONS => exact Or.inl rfl
  | POST =>
    cases f with
    | none => exact Or.inl rfl
    | some f' =>
      cases ht : truthy f'.filename with
      | false =>
        left
        simp [separate, ht]
      | true =>
        right
        refine ⟨(separateBody w f').2, ?_⟩
        simp [separate, ht]

/-! ### C9 -/

/-- C9 counterexample: for the client filename `".."`, `Path("..").name`
is `".."` itself, so the upload is persisted at `<workspace>/..` — the
write path carries a directory component and resolves to the workspace
parent, not to a location directly inside the workspace. -/
theorem separate_dotdot_escapes :
    pyName ".." = ".." ∧
    Event.writeFile (["", "tmp", "req0"] ++ [".."]) "payload" ∈
      (separate w0 .POST (some { filename := some "..", content := "payload" })).2 ∧
    resolveDots (["", "tmp", "req0"] ++ [".."]) = ["", "tmp"] ∧
    ¬ ∃ n, resolveDots (["", "tmp", "req0"] ++ [".."]) = ["", "tmp", "req0"] ++ [n] := by
  refine ⟨by decide, by decide, by decide, ?_⟩
  rintro ⟨n, h⟩
  have hv : resolveDots (["", "tmp", "req0"] ++ [".."]) = ["", "tmp"] := by decide
  rw [hv] at h
  simp at h

/-- Every write event of `separateBody` targets the single path
`workspace ⧸ pyName filename` with the uploaded bytes. -/
theorem separateBody_writes (w : World) (f : UploadFile) (p : PPath) (d : String)
    (h : Event.writeFile p d ∈ (separateBody w f).2) :
    p = pathJoin w.tmpdir (pyName (f.filename.getD "")) ∧ d = f.content := by
  rw [separateBody] at h
  rcases h1 : (maybe_transcode_to_wav w
      (pathJoin w.tmpdir (pyName (f.filename.getD ""))) w.tmpdir).1 with er | pi <;>
    simp only [h1] at h
  · rcases List.mem_cons.mp h with heq | hmem
    · injection heq with hp hd
      exact ⟨hp, hd⟩
    · obtain ⟨c, hc⟩ := maybe_transcode_spawn_only w _ _ _ hmem
      cases hc
  · have hrest : Event.writeFile p d ∈
        Event.writeFile (pathJoin w.tmpdir (pyName (f.filename.getD ""))) f.content ::
          ((maybe_transcode_to_wav w
            (pathJoin w.tmpdir (pyName (f.filename.getD ""))) w.tmpdir).2 ++
           (run_demucs w pi (pathJoin w.tmpdir "separated")).2) := by
      rcases h2 : (run_demucs w pi (pathJoin w.tmpdir "separated")).1 with er2 | sd <;>
        simp only [h2] at h
      · exact h
      · rcases h3 : zip_stems w sd with er3 | en <;> simp only [h3] at h
        · exact h
        · exact h
    rcases List.mem_cons.mp hrest with heq | hmem
    · injection heq with hp hd
      exact ⟨hp, hd⟩
    · rcases List.mem_append.mp hmem with hmem1 | hmem2
      · obtain ⟨c, hc⟩ := maybe_transcode_spawn_only w _ _ _ hmem1
        cases hc
      · obtain ⟨c, hc⟩ := run_demucs_spawn_only w _ _ _ hmem2
        cases hc

/-- The persisting write always occurs, at the head of the body trace. -/
theorem separateBody_has_write (w : World) (f : UploadFile) :
    Event.writeFile (pathJoin w.tmpdir (pyName (f.filename.getD ""))) f.content ∈
      (separateBody w f).2 := by
  rw [separateBody]
  rcases h1 : (maybe_transcode_to_wav w
      (pathJoin w.tmpdir (pyName (f.filename.getD ""))) w.tmpdir).1 with er | pi <;>
    simp only [h1]
  · exact List.mem_cons_self _ _
  · rcases h2 : (run_demucs w pi (pathJoin w.tmpdir "separated")).1 with er2 | sd <;>
      simp only [h2]
    · exact List.mem_cons_self _ _
    · rcases h3 : zip_stems w sd with er3 | en <;> simp only [h3]
      · exact List.mem_cons_self _ _
      · exact List.mem_cons_self _ _

/-- C9 amended: the upload is persisted exactly at the workspace joined
with `Path(filename).name` (pathlib normalization: directory components,
`.` and empty components are dropped, but a final `..` survives).  Every
write in the request targets that one path.  Whenever the resulting name
is a regular component (neither empty nor `..`), the path is the
workspace extended by that single component, i.e. directly inside the
workspace; a filename whose normalized final component is `..` instead
yields `<workspace>/..`, which resolves outside (see the counterexample). -/
theorem separate_persist_path (w : World) (name content : String)
    (hname : name ≠ "") :
    (∀ p d, Event.writeFile p d ∈
        (separate w .POST (some { filename := some name, content := content })).2 →
      p = pathJoin w.tmpdir (pyName name) ∧ d = content) ∧
    Event.writeFile (pathJoin w.tmpdir (pyName name)) content ∈
      (separate w .POST (some { filename := some name, content := content })).2 ∧
    (pyName name ≠ "" →
      pathJoin w.tmpdir (pyName name) = w.tmpdir ++ [pyName name] ∧
      (pyName name ≠ ".." →
        resolveDots (w.tmpdir ++ [pyName name]) =
          resolveDots w.tmpdir ++ [pyName name])) := by
  have htruthy : truthy (some name) = true := by
    simp [truthy, hname]
  have hsep : separate w .POST (some { filename := some name, content := content }) =
      ((separateBody w { filename := some name, content := content }).1,
        Event.mkWorkspace w.tmpdir ::
          ((separateBody w { filename := some name, content := content }).2 ++
            [Event.rmWorkspace w.tmpdir])) := by
    rw [separate]
    rw [if_neg (by intro h; cases h)]
    rw [htruthy]
    rw [if_neg (by intro h; cases h)]
  refine ⟨fun p d hpd => ?_, ?_, fun h1 => ⟨by rw [pathJoin, if_neg h1], fun h2 => resolveDots_concat _ _ h2⟩⟩
  · rw [hsep] at hpd
    rcases List.mem_cons.mp hpd with heq | hmem
    · cases heq
    · rcases List.mem_append.mp hmem with hbody | hlast
      · exact separateBody_writes w _ p d hbody
      · simp at hlast
  · rw [hsep]
    exact List.mem_cons_of_mem _ (List.mem_append_left _
      (separateBody_has_write w { filename := some name, content := content }))

/-- Witness for C9 (amended): the filename `evil/../song.wav` is persisted
at `<workspace>/song.wav` — the client directory components (including the
traversal prefix) are dropped and the file sits directly inside the
workspace. -/
theorem separate_persist_path_witness :
    (∀ p d, Event.writeFile p d ∈
        (separate w0 .POST (some { filename := some "evil/../song.wav", content := "x" })).2 →
      p = pathJoin w0.tmpdir (pyName "evil/../song.wav") ∧ d = "x") ∧
    Event.writeFile (pathJoin w0.tmpdir (pyName "evil/../song.wav")) "x" ∈
      (separate w0 .POST (some { filename := some "evil/../song.wav", content := "x" })).2 ∧
    (pyName "evil/../song.wav" ≠ "" →
      pathJoin w0.tmpdir (pyName "evil/../song.wav") =
        w0.tmpdir ++ [pyName "evil/../song.wav"] ∧
      (pyName "evil/../song.wav" ≠ ".." →
        resolveDots (w0.tmpdir ++ [pyName "evil/../song.wav"]) =
          resolveDots w0.tmpdir ++ [pyName "evil/../song.wav"])) :=
  separate_persist_path w0 "evil/../song.wav" "x" (by decide)

end BeatStudio
